import Mathlib

/-!
Verification of the `goapi` service scaffold (src/main.go): bootstrap
sequencing, readiness state, middleware pipeline order, migration runner,
signal handling and graceful shutdown.

The Go source is shallowly embedded: each fallible external operation
(postgres.New, db.Connect, db.Migrate, srv.ListenAndServe, srv.Shutdown)
is represented by its outcome, and the control flow of `main` and
`initDatabase` is translated statement by statement.
-/

namespace GoApi

/-! ## Service bootstrap (`main` / `initDatabase`, src/main.go lines 28-109) -/

/-- Bootstrap phases of the service, in the order the spec names them. -/
inductive Phase where
  | configResolved
  | connectionEstablished
  | migrationsApplied
  | pipelineAssembled
  | coordinatorArmed
  | listenerStarted
deriving DecidableEq, Repr

/-- Errors that can abort the bootstrap, mirroring the fallible calls in
`initDatabase`: `postgres.New`, `db.Connect`, `db.Migrate`. -/
inductive BootError where
  | newError
  | connectError
  | migrateError
deriving DecidableEq, Repr

/-- Outcomes of the three fallible calls inside `initDatabase`.  Each field
is `true` when the corresponding Go call returns a nil error. -/
structure BootEnv where
  newOk : Bool
  connectOk : Bool
  migrateOk : Bool
deriving DecidableEq, Repr

/-- Embedding of `initDatabase` (src/main.go lines 92-109): `postgres.New`, then
`db.Connect`, then `db.Migrate`, each followed by
`if err != nil { return nil, err }`.  Returns the phases completed inside
this function together with the error, if any. -/
def initDatabase (env : BootEnv) : List Phase × Option BootError :=
  if ¬ env.newOk then ([], some .newError)
  else if ¬ env.connectOk then ([], some .connectError)
  else if ¬ env.migrateOk then ([.connectionEstablished], some .migrateError)
  else ([.connectionEstablished, .migrationsApplied], none)

/-- Whether the process served any request. -/
inductive BootResult where
  | exitedBeforeServing
  | serving
deriving DecidableEq, Repr

/-- Embedding of `main` (src/main.go lines 28-90) as a phase trace: `parseFlags` resolves
the configuration, `initDatabase` is called and a non-nil error is fatal
(`logger.WithError(err).Fatal()` exits the process); otherwise the router
and middleware pipeline are assembled, the shutdown goroutine is started,
and `ListenAndServe` starts the listener. -/
def mainPhases (env : BootEnv) : List Phase × BootResult :=
  let t0 : List Phase := [.configResolved]
  match initDatabase env with
  | (t, some _) => (t0 ++ t, .exitedBeforeServing)
  | (t, none) =>
      (t0 ++ t ++ [.pipelineAssembled, .coordinatorArmed, .listenerStarted], .serving)

/-- The full bootstrap order the spec prescribes. -/
def bootOrder : List Phase :=
  [.configResolved, .connectionEstablished, .migrationsApplied,
   .pipelineAssembled, .coordinatorArmed, .listenerStarted]

/-! ## Server error logging after `ListenAndServe` returns
(src/main.go lines 87-89) -/

/-- The sentinel error `http.ErrServerClosed` returned by a graceful
shutdown. -/
def errServerClosed : String := "http: Server closed"

/-- The guard `err != nil && err != http.ErrServerClosed` on line 87:
exactly when it holds, `logger.WithError(err).Error("server error")` runs. -/
def serverErrorLogged (err : Option String) : Bool :=
  match err with
  | none => false
  | some e => e != errServerClosed

/-! ## Signals and the shutdown coordinator (src/main.go lines 70-83) -/

/-- The POSIX signals occurring in src/main.go lines 71-72. -/
inductive Signal where
  | SIGINT
  | SIGTERM
  | SIGHUP
  | SIGPIPE
deriving DecidableEq, Repr

/-- From `signal.Notify(sigquit, syscall.SIGINT, syscall.SIGTERM)` (line 72):
the signals delivered to the shutdown goroutine's channel. -/
def notifiedSignals : List Signal := [.SIGINT, .SIGTERM]

/-- From `signal.Ignore(syscall.SIGHUP, syscall.SIGPIPE)` (line 71): signals the
process explicitly ignores. -/
def ignoredSignals : List Signal := [.SIGHUP, .SIGPIPE]

/-- States of the shutdown coordinator. -/
inductive CoordState where
  | Armed
  | Triggered
deriving DecidableEq, Repr

/-- Delivery of one signal to the armed coordinator: only signals
registered via `signal.Notify` reach the `sigquit` channel and wake the
goroutine blocked at `s := <-sigquit` (line 74); ignored and unregistered
signals leave it waiting. -/
def coordStep (st : CoordState) (s : Signal) : CoordState :=
  if st = .Armed && s ∈ notifiedSignals then .Triggered else st

/-- The coordinator state after a sequence of delivered signals, starting
from `Armed`. -/
def coordRun (sigs : List Signal) : CoordState :=
  sigs.foldl coordStep .Armed

/-- Actions performed by the process, in particular by the shutdown
goroutine body (src/main.go lines 74-82) once triggered. -/
inductive Action where
  | logCaptured
  | setReadinessUnavailable
  | logShutdown
  | requestDrain
  | logDrainError
  | logServerError
  | fatalExit
  | returnFromMain
deriving DecidableEq, Repr

/-- The shutdown goroutine body (lines 74-82), parametrized by the outcome
of `srv.Shutdown` (`drainErr = some e` when it returns a non-nil error):
log the captured signal, set readiness to unavailable, log, request the
drain, and log the drain error when there is one.  Nothing in the body
exits the process. -/
def shutdownRoutine (drainErr : Option String) : List Action :=
  [.logCaptured, .setReadinessUnavailable, .logShutdown, .requestDrain] ++
    (match drainErr with
     | some _ => [.logDrainError]
     | none => [])

/-- The tail of `main` after `srv.ListenAndServe()` returns (lines 87-90):
log a server error unless the error is nil or `http.ErrServerClosed`, then
fall off the end of `main`. -/
def mainTail (serveErr : Option String) : List Action :=
  (if serverErrorLogged serveErr then [.logServerError] else []) ++ [.returnFromMain]

/-! ## Readiness status (internal/health, consumed at src/main.go
lines 61 and 77) -/

/-- Modelled from the spec: `ReadinessStatus` of the `internal/health`
package (not under src/) is a process-wide flag, "initialized to OK at
startup, set to UNAVAILABLE exactly once, at the start of shutdown; never
reset". -/
inductive ReadinessStatus where
  | OK
  | UNAVAILABLE
deriving DecidableEq, Repr

/-- Effect of one process action on the readiness flag: the only write is
`health.SetReadinessStatus(http.StatusServiceUnavailable)` at
src/main.go line 77; no action ever writes OK. -/
def readinessStep (st : ReadinessStatus) (a : Action) : ReadinessStatus :=
  if a = .setReadinessUnavailable then .UNAVAILABLE else st

/-- Readiness after a sequence of actions, starting from the startup value
OK. -/
def readinessAfter (acts : List Action) : ReadinessStatus :=
  acts.foldl readinessStep .OK

/-! ## Middleware pipeline (src/main.go lines 52-66)

The router is built with
`r.Use(middleware.RequestID, middleware.RealIP, handler.RequestLogger(logger), middleware.Recoverer, cm.Handler)`:
chi composes the registered middlewares around the router so that the
first-registered stage is outermost.  Each stage is embedded as a handler
transformer over an explicit request context; visiting a stage records an
event, so the execution order is inspectable. -/

/-- Pipeline positions a request passes through. -/
inductive Visit where
  | requestID
  | realIP
  | requestLogger
  | recoverer
  | corsHandler
  | router
deriving DecidableEq, Repr

/-- Request-processing context threaded through the pipeline: the request
identifier set by `middleware.RequestID`, the structured log entries
(request id, response status) written by `handler.RequestLogger`, and the
order in which stages were entered. -/
structure Ctx where
  requestId : Option Nat
  logEntries : List (Option Nat × Nat)
  events : List Visit
deriving DecidableEq, Repr

/-- Outcome of running a handler on a request: a response with an HTTP
status, or an uncaught Go panic propagating out of the handler. -/
inductive Outcome where
  | response (status : Nat)
  | panicked
deriving DecidableEq, Repr

/-- A handler: chi's `http.Handler` capability, shallowly embedded. -/
def Handler : Type := Ctx → Ctx × Outcome

/-- The five middleware stages registered in `r.Use` (lines 54-60). -/
inductive Stage where
  | requestID
  | realIP
  | requestLogger
  | recoverer
  | corsHandler
deriving DecidableEq, Repr

/-- One middleware stage wrapping the next handler:
`middleware.RequestID` assigns a request identifier before delegating;
`middleware.RealIP` normalizes the client address before delegating;
`handler.RequestLogger` delegates, then records a log entry carrying the
request id and the response status (modelled from the spec: the logger of
pkg/handler, not under src/, records the eventual response status);
`middleware.Recoverer` delegates and converts a panic of the inner
handler into a 500 Internal Server Error response;
the `cm.Handler` CORS stage evaluates the policy and delegates for a
permitted request. -/
def wrap : Stage → Handler → Handler
  | .requestID, next => fun ctx =>
      next { ctx with requestId := some 1, events := ctx.events ++ [Visit.requestID] }
  | .realIP, next => fun ctx =>
      next { ctx with events := ctx.events ++ [Visit.realIP] }
  | .requestLogger, next => fun ctx =>
      match next { ctx with events := ctx.events ++ [Visit.requestLogger] } with
      | (c, .response s) =>
          ({ c with logEntries := c.logEntries ++ [(c.requestId, s)] }, .response s)
      | (c, .panicked) => (c, .panicked)
  | .recoverer, next => fun ctx =>
      match next { ctx with events := ctx.events ++ [Visit.recoverer] } with
      | (c, .panicked) => (c, .response 500)
      | (c, .response s) => (c, .response s)
  | .corsHandler, next => fun ctx =>
      next { ctx with events := ctx.events ++ [Visit.corsHandler] }

/-- The middleware chain in registration order (src/main.go lines 54-60). -/
def middlewareChain : List Stage :=
  [.requestID, .realIP, .requestLogger, .recoverer, .corsHandler]

/-- Composition as chi performs it: the first-registered middleware is the
outermost wrapper around the base handler (the router dispatch). -/
def compose (chain : List Stage) (base : Handler) : Handler :=
  chain.foldr wrap base

/-- A downstream route handler reached through the router: records the
dispatch and either returns a 200 response or panics. -/
def routeHandler (panics : Bool) : Handler := fun ctx =>
  ({ ctx with events := ctx.events ++ [Visit.router] },
   if panics then .panicked else .response 200)

/-! ## CORS options (src/main.go lines 45-51) -/

/-- The configurable CORS inputs taken from `cfg.HTTP`. -/
structure CorsInput where
  allowedOrigins : List String
  allowedHeaders : List String
  exposedHeaders : List String
deriving DecidableEq, Repr

/-- The options record handed to `cors.New`. -/
structure CorsOptions where
  allowedOrigins : List String
  allowedHeaders : List String
  exposedHeaders : List String
  allowedMethods : List String
  allowCredentials : Bool
deriving DecidableEq, Repr

/-- The `cors.Options` literal of src/main.go lines 45-51: origins, headers
and exposed headers come from configuration; `AllowedMethods` is the
hardcoded list GET, PUT, DELETE; `AllowCredentials` is the literal true. -/
def corsOptions (cfg : CorsInput) : CorsOptions :=
  { allowedOrigins := cfg.allowedOrigins
    allowedHeaders := cfg.allowedHeaders
    exposedHeaders := cfg.exposedHeaders
    allowedMethods := ["GET", "PUT", "DELETE"]
    allowCredentials := true }

/-- Modelled from the spec: the CORS stage rejects or allows "based on
origin, headers, methods, credentials" (the goware/cors method check is
not under src/).  A method passes the method check when it is the
preflight method OPTIONS or is in the allowed-methods list. -/
def methodAllowed (o : CorsOptions) (m : String) : Bool :=
  m == "OPTIONS" || o.allowedMethods.contains m

/-! ## Migration runner (`db.Migrate`, src/main.go lines 92-109) -/

/-- The backing store: the persisted migration ledger (applied migration
ids, in order of application) plus the store's other durable contents,
kept abstract as a list of facts. -/
structure Store where
  ledger : List String
  data : List String
deriving DecidableEq, Repr

/-- A migration record: an id and an apply procedure that transforms the
store's contents or fails. -/
structure Migration where
  id : String
  run : List String → Option (List String)

/-- Modelled from the spec: the migration runner behind `db.Migrate`
(pkg/postgres wrapping the sql-migrate source, not under src/).  Reads
the ledger; for each migration in declared order, if its id is absent
from the ledger, executes its apply procedure and then appends a ledger
entry, the pair atomic per migration; stops at the first failing
migration, surfacing the failing id; on success returns how many
migrations were newly applied. -/
def migrate : List Migration → Store → Store × Except String Nat
  | [], s => (s, .ok 0)
  | m :: rest, s =>
      if m.id ∈ s.ledger then migrate rest s
      else
        match m.run s.data with
        | none => (s, .error m.id)
        | some d =>
            match migrate rest { ledger := s.ledger ++ [m.id], data := d } with
            | (s', .ok n) => (s', .ok (n + 1))
            | (s', .error e) => (s', .error e)

/-- The context a request carries by the time the five registered stages
have all been entered and control reaches the base handler. -/
def pipelineEntryCtx (ctx : Ctx) : Ctx :=
  { ctx with
      requestId := some 1
      events := ctx.events ++ [Visit.requestID, Visit.realIP,
        Visit.requestLogger, Visit.recoverer, Visit.corsHandler] }

/-- A sample migration creating the first table. -/
def mig1 : Migration := ⟨"0001", fun d => some (d ++ ["t1"])⟩

/-- A sample migration whose apply procedure fails on every store. -/
def migFail : Migration := ⟨"0002", fun _ => none⟩

/-- A sample migration creating another table. -/
def mig3 : Migration := ⟨"0003", fun d => some (d ++ ["t3"])⟩

/-! ## Helper lemmas -/

/-- The runner only ever appends to the ledger: the initial ledger is a
prefix of the final one, whatever the outcome. -/
theorem migrate_ledger_prefix (migs : List Migration) (s : Store) :
    s.ledger <+: (migrate migs s).1.ledger := by
  induction migs generalizing s with
  | nil => simp [migrate]
  | cons m rest ih =>
    by_cases h : m.id ∈ s.ledger
    · simpa [migrate, h] using ih s
    · cases hr : m.run s.data with
      | none => simp [migrate, h, hr]
      | some d =>
        have hpre : s.ledger <+: s.ledger ++ [m.id] := List.prefix_append _ _
        have hih := ih { ledger := s.ledger ++ [m.id], data := d }
        rcases hm : migrate rest { ledger := s.ledger ++ [m.id], data := d } with ⟨s', r⟩
        rw [hm] at hih
        simp only [migrate, h, hr, if_false, hm]
        cases r <;> simpa using hpre.trans hih

/-- After a successful run, every migration id of the list is recorded in
the final ledger. -/
theorem migrate_ok_ids_in_ledger (migs : List Migration) (s s1 : Store) (n : Nat)
    (h : migrate migs s = (s1, .ok n)) : ∀ m ∈ migs, m.id ∈ s1.ledger := by
  induction migs generalizing s n with
  | nil => intro m hm; exact absurd hm (List.not_mem_nil m)
  | cons m rest ih =>
    intro m' hm'
    by_cases hmem : m.id ∈ s.ledger
    · simp only [migrate, hmem, if_true] at h
      rcases List.mem_cons.mp hm' with rfl | hm'
      · have := migrate_ledger_prefix rest s
        rw [h] at this
        exact this.subset hmem
      · exact ih s n h m' hm'
    · cases hr : m.run s.data with
      | none => simp [migrate, hmem, hr] at h
      | some d =>
        simp only [migrate, hmem, hr, if_false] at h
        rcases hm2 : migrate rest { ledger := s.ledger ++ [m.id], data := d } with ⟨s2, r⟩
        rw [hm2] at h
        cases r with
        | error e => simp at h
        | ok k =>
          simp only [Prod.mk.injEq, Except.ok.injEq] at h
          obtain ⟨rfl, rfl⟩ := h
          rcases List.mem_cons.mp hm' with rfl | hm'
          · have := migrate_ledger_prefix rest { ledger := s.ledger ++ [m'.id], data := d }
            rw [hm2] at this
            exact this.subset (by simp)
          · exact ih { ledger := s.ledger ++ [m.id], data := d } k hm2 m' hm'

/-- If every id of the list is already in the ledger, the run is a no-op
applying zero migrations. -/
theorem migrate_all_in_ledger (migs : List Migration) (s : Store)
    (h : ∀ m ∈ migs, m.id ∈ s.ledger) : migrate migs s = (s, .ok 0) := by
  induction migs with
  | nil => rfl
  | cons m rest ih =>
    simp only [migrate, if_pos (h m (List.mem_cons_self m rest))]
    exact ih fun m' hm' => h m' (List.mem_cons_of_mem m hm')

/-- Splitting a run after a successful prefix: running `pre ++ post` from
`s` is running `post` from the state `pre` left behind, with the applied
counts added. -/
theorem migrate_append_ok (pre post : List Migration) (s s1 : Store) (n : Nat)
    (h : migrate pre s = (s1, .ok n)) :
    migrate (pre ++ post) s =
      ((migrate post s1).1,
        match (migrate post s1).2 with
        | .ok k => .ok (n + k)
        | .error e => .error e) := by
  induction pre generalizing s n with
  | nil =>
    simp only [migrate, Prod.mk.injEq, Except.ok.injEq] at h
    obtain ⟨rfl, rfl⟩ := h
    rcases hp : migrate post s with ⟨s2, r⟩
    cases r <;> simp [hp]
  | cons m pre' ih =>
    by_cases hmem : m.id ∈ s.ledger
    · simp only [List.cons_append, migrate, hmem, if_true] at h ⊢
      exact ih s n h
    · cases hr : m.run s.data with
      | none => simp [migrate, hmem, hr] at h
      | some d =>
        simp only [List.cons_append, migrate, hmem, hr, if_false] at h ⊢
        rcases hm2 : migrate pre' { ledger := s.ledger ++ [m.id], data := d } with ⟨s2, r⟩
        rw [hm2] at h
        cases r with
        | error e => simp at h
        | ok k =>
          simp only [Prod.mk.injEq, Except.ok.injEq] at h
          obtain ⟨rfl, rfl⟩ := h
          simp only [List.append_eq]
          rw [ih _ k hm2]
          rcases migrate post s2 with ⟨s3, r3⟩
          cases r3 with
          | ok k2 => simp; omega
          | error e => simp

/-- Evaluation of the composed pipeline on any base handler: the five
stages run in registration order (request id assigned, client address
normalized, logger entered, recoverer entered, CORS entered), the base
handler runs last, a panic of the base handler is converted by the
recoverer into a 500 response, and the logger records the eventual
status. -/
theorem compose_chain_eval (base : Handler) (ctx : Ctx) :
    compose middlewareChain base ctx =
      match base (pipelineEntryCtx ctx) with
      | (cb, .response s) =>
          ({ cb with logEntries := cb.logEntries ++ [(cb.requestId, s)] }, .response s)
      | (cb, .panicked) =>
          ({ cb with logEntries := cb.logEntries ++ [(cb.requestId, 500)] }, .response 500) := by
  have harg :
      ({ ctx with
           requestId := some 1
           events := ((((ctx.events ++ [Visit.requestID]) ++ [Visit.realIP]) ++
             [Visit.requestLogger]) ++ [Visit.recoverer]) ++ [Visit.corsHandler] } : Ctx) =
      pipelineEntryCtx ctx := by
    simp [pipelineEntryCtx]
  simp only [compose, middlewareChain, List.foldr_cons, List.foldr_nil, wrap]
  rw [harg]
  rcases hb : base (pipelineEntryCtx ctx) with ⟨cb, o⟩
  cases o <;> simp

/-! ## Claim theorems -/

/-- C1: the service bootstrap executes configuration resolution, connection
establishment, migration application, pipeline assembly, coordinator
arming and listener start strictly in this order (the phase trace is
always a prefix of `bootOrder`, and the full order is reached exactly when
the process serves), and any connection or migration failure makes the
process exit before serving, with no later phase attempted. -/
theorem C1_bootstrap_sequencing (env : BootEnv) :
    (mainPhases env).1 <+: bootOrder
    ∧ ((mainPhases env).2 = .serving ↔ (mainPhases env).1 = bootOrder)
    ∧ ((env.newOk && env.connectOk && env.migrateOk) = false →
        (mainPhases env).2 = .exitedBeforeServing
        ∧ Phase.listenerStarted ∉ (mainPhases env).1
        ∧ Phase.pipelineAssembled ∉ (mainPhases env).1) := by
  obtain ⟨a, b, c⟩ := env
  cases a <;> cases b <;> cases c <;> decide

/-- Witness for C1 at the failure of the migration phase. -/
theorem C1_bootstrap_sequencing_witness :
    (mainPhases ⟨true, true, false⟩).2 = .exitedBeforeServing
    ∧ Phase.listenerStarted ∉ (mainPhases ⟨true, true, false⟩).1
    ∧ Phase.pipelineAssembled ∉ (mainPhases ⟨true, true, false⟩).1 :=
  (C1_bootstrap_sequencing ⟨true, true, false⟩).2.2 (by decide)

/-- C2: readiness is initialized to OK; the shutdown routine flips it to
UNAVAILABLE strictly before requesting the drain; the flip is the only
readiness write (once in the routine, never in the tail of main); and
once UNAVAILABLE, readiness stays UNAVAILABLE under any further
actions. -/
theorem C2_readiness_flip (drainErr serveErr : Option String) :
    readinessAfter [] = .OK
    ∧ (shutdownRoutine drainErr).indexOf .setReadinessUnavailable <
        (shutdownRoutine drainErr).indexOf .requestDrain
    ∧ (shutdownRoutine drainErr).count .setReadinessUnavailable = 1
    ∧ (mainTail serveErr).count .setReadinessUnavailable = 0
    ∧ ∀ acts more : List Action, readinessAfter acts = .UNAVAILABLE →
        readinessAfter (acts ++ more) = .UNAVAILABLE := by
  refine ⟨rfl, ?_, ?_, ?_, ?_⟩
  · cases drainErr <;> simp only [shutdownRoutine] <;> decide
  · cases drainErr <;> simp only [shutdownRoutine] <;> decide
  · cases h : serverErrorLogged serveErr <;> simp only [mainTail, h] <;> decide
  · intro acts more h
    have hstable : ∀ l : List Action,
        List.foldl readinessStep .UNAVAILABLE l = .UNAVAILABLE := by
      intro l
      induction l with
      | nil => rfl
      | cons a rest ih =>
        have ha : readinessStep .UNAVAILABLE a = .UNAVAILABLE := by
          unfold readinessStep
          split <;> rfl
        rw [List.foldl_cons, ha]
        exact ih
    unfold readinessAfter at h ⊢
    rw [List.foldl_append, h]
    exact hstable more

/-- Witness for C2: once flipped, the flag stays UNAVAILABLE. -/
theorem C2_readiness_flip_witness :
    readinessAfter ([Action.logCaptured, Action.setReadinessUnavailable] ++
      [Action.logShutdown, Action.requestDrain]) = .UNAVAILABLE :=
  (C2_readiness_flip (some "context canceled") none).2.2.2.2
    [Action.logCaptured, Action.setReadinessUnavailable]
    [Action.logShutdown, Action.requestDrain] (by decide)

/-- C7: SIGINT and SIGTERM move the armed coordinator to Triggered, while
SIGHUP and SIGPIPE never change the coordinator's state: a whole signal
sequence of ignored signals leaves it Armed. -/
theorem C7_signal_handling :
    coordStep .Armed .SIGINT = .Triggered
    ∧ coordStep .Armed .SIGTERM = .Triggered
    ∧ (∀ st s, s ∈ ignoredSignals → coordStep st s = st)
    ∧ (∀ sigs : List Signal, (∀ s ∈ sigs, s ∈ ignoredSignals) →
        coordRun sigs = .Armed) := by
  refine ⟨by decide, by decide, ?_, ?_⟩
  · intro st s hs
    simp only [ignoredSignals, List.mem_cons, List.not_mem_nil, or_false,
      List.mem_singleton] at hs
    rcases hs with rfl | rfl <;> cases st <;> decide
  · intro sigs
    induction sigs with
    | nil => intro _; rfl
    | cons s rest ih =>
      intro hall
      have hs := hall s (List.mem_cons_self s rest)
      have h1 : coordStep .Armed s = .Armed := by
        simp only [ignoredSignals, List.mem_cons, List.not_mem_nil, or_false,
          List.mem_singleton] at hs
        rcases hs with rfl | rfl <;> decide
      unfold coordRun
      rw [List.foldl_cons, h1]
      exact ih fun s' hs' => hall s' (List.mem_cons_of_mem s hs')

/-- Witness for C7: SIGHUP leaves the coordinator untouched, and a burst
of both benign signals leaves it Armed. -/
theorem C7_signal_handling_witness :
    coordStep .Armed .SIGHUP = .Armed ∧ coordRun [.SIGHUP, .SIGPIPE] = .Armed :=
  ⟨C7_signal_handling.2.2.1 .Armed .SIGHUP (by decide),
   C7_signal_handling.2.2.2 [.SIGHUP, .SIGPIPE] (by decide)⟩

/-- C8: a drain error is logged but not escalated: the shutdown routine
performs the same four leading actions whatever the drain outcome, never
exits the process itself, logs the drain error when there is one, and the
process always ends by falling off the end of main after the listen call
returns. -/
theorem C8_drain_error_nonfatal (drainErr serveErr : Option String) :
    Action.fatalExit ∉ shutdownRoutine drainErr
    ∧ (shutdownRoutine drainErr).take 4 =
        [.logCaptured, .setReadinessUnavailable, .logShutdown, .requestDrain]
    ∧ (∀ e, drainErr = some e → Action.logDrainError ∈ shutdownRoutine drainErr)
    ∧ (mainTail serveErr).getLast? = some .returnFromMain := by
  refine ⟨?_, ?_, ?_, ?_⟩
  · cases drainErr <;> simp only [shutdownRoutine] <;> decide
  · cases drainErr <;> rfl
  · intro e he
    subst he
    simp [shutdownRoutine]
  · cases h : serverErrorLogged serveErr <;> simp only [mainTail, h] <;> decide

/-- Witness for C8 at a concrete failed drain and a concrete listen
error. -/
theorem C8_drain_error_nonfatal_witness :
    Action.logDrainError ∈ shutdownRoutine (some "context deadline exceeded") :=
  (C8_drain_error_nonfatal (some "context deadline exceeded")
    (some "listen tcp: address already in use")).2.2.1
    "context deadline exceeded" rfl

/-- C10: no server error is logged for a nil result or for
http.ErrServerClosed, and a server error is logged exactly when listen
returns a non-nil error different from http.ErrServerClosed. -/
theorem C10_server_error_logging :
    serverErrorLogged none = false
    ∧ serverErrorLogged (some errServerClosed) = false
    ∧ ∀ err : Option String,
        (serverErrorLogged err = true ↔ ∃ e, err = some e ∧ e ≠ errServerClosed) := by
  refine ⟨rfl, by simp [serverErrorLogged], ?_⟩
  intro err
  cases err with
  | none => simp [serverErrorLogged]
  | some e => simp [serverErrorLogged]

/-- Witness for C10 at a concrete bind failure. -/
theorem C10_server_error_logging_witness :
    serverErrorLogged (some "listen tcp: address already in use") = true ↔
      ∃ e, (some "listen tcp: address already in use" : Option String) = some e
        ∧ e ≠ errServerClosed :=
  C10_server_error_logging.2.2 (some "listen tcp: address already in use")

/-- C3: the composed pipeline applies request-identifier assignment first
(outermost), then client-address normalization, then request logging,
then panic recovery, then CORS enforcement, then dispatches to the
router: the recorded execution order equals the registration order, for
every request and whether or not the route handler panics. -/
theorem C3_middleware_order (ctx : Ctx) (panics : Bool) :
    ((compose middlewareChain (routeHandler panics)) ctx).1.events =
      ctx.events ++ [Visit.requestID, Visit.realIP, Visit.requestLogger,
        Visit.recoverer, Visit.corsHandler, Visit.router] := by
  rw [compose_chain_eval]
  cases panics <;> simp [routeHandler, pipelineEntryCtx]

/-- Witness for C3 at a fresh request context. -/
theorem C3_middleware_order_witness :
    ((compose middlewareChain (routeHandler false)) ⟨none, [], []⟩).1.events =
      (Ctx.mk none [] []).events ++ [Visit.requestID, Visit.realIP,
        Visit.requestLogger, Visit.recoverer, Visit.corsHandler, Visit.router] :=
  C3_middleware_order ⟨none, [], []⟩ false

/-- C4: when the downstream route handler panics on every input, the
pipeline still returns an ordinary 500 response (the panic never escapes,
so the process does not crash) and the logging stage records an entry for
the request carrying the failure status 500. -/
theorem C4_panic_recovered_and_logged (h : Handler) (ctx : Ctx)
    (hp : ∀ c, (h c).2 = .panicked) :
    ((compose middlewareChain h) ctx).2 = .response 500
    ∧ ((compose middlewareChain h) ctx).2 ≠ .panicked
    ∧ ((h (pipelineEntryCtx ctx)).1.requestId, 500) ∈
        ((compose middlewareChain h) ctx).1.logEntries := by
  rw [compose_chain_eval]
  have hh := hp (pipelineEntryCtx ctx)
  rcases hb : h (pipelineEntryCtx ctx) with ⟨cb, o⟩
  rw [hb] at hh
  simp only at hh
  subst hh
  simp

/-- Witness for C4: a handler that always panics, reached through the full
chain from a fresh context. -/
theorem C4_panic_recovered_and_logged_witness :
    ((compose middlewareChain (routeHandler true)) ⟨none, [], []⟩).2 = .response 500
    ∧ ((compose middlewareChain (routeHandler true)) ⟨none, [], []⟩).2 ≠ .panicked
    ∧ ((routeHandler true (pipelineEntryCtx ⟨none, [], []⟩)).1.requestId, 500) ∈
        ((compose middlewareChain (routeHandler true)) ⟨none, [], []⟩).1.logEntries :=
  C4_panic_recovered_and_logged (routeHandler true) ⟨none, [], []⟩ (fun _ => rfl)

/-- C5: when migration k fails after a successful prefix, the runner
surfaces an error carrying k's id, the result does not depend on the
migrations after k (they are not attempted), and the ledger keeps what
was recorded before k: the initial ledger is a prefix of the final one
and every migration of the successful prefix is in the final ledger. -/
theorem C5_migration_failure (pre post : List Migration) (mig : Migration)
    (s s1 : Store) (n : Nat)
    (hpre : migrate pre s = (s1, .ok n))
    (hnew : mig.id ∉ s1.ledger)
    (hfail : mig.run s1.data = none) :
    migrate (pre ++ mig :: post) s = (s1, .error mig.id)
    ∧ migrate (pre ++ mig :: post) s = migrate (pre ++ [mig]) s
    ∧ s.ledger <+: s1.ledger
    ∧ ∀ m ∈ pre, m.id ∈ s1.ledger := by
  have hstep : ∀ rest : List Migration, migrate (mig :: rest) s1 = (s1, .error mig.id) := by
    intro rest
    simp [migrate, hnew, hfail]
  have h1 := migrate_append_ok pre (mig :: post) s s1 n hpre
  rw [hstep post] at h1
  have h2 := migrate_append_ok pre [mig] s s1 n hpre
  rw [hstep []] at h2
  have h1' : migrate (pre ++ mig :: post) s = (s1, .error mig.id) := by simpa using h1
  have h2' : migrate (pre ++ [mig]) s = (s1, .error mig.id) := by simpa using h2
  refine ⟨h1', by rw [h1', h2'], ?_, migrate_ok_ids_in_ledger pre s s1 n hpre⟩
  have hm := migrate_ledger_prefix pre s
  rw [hpre] at hm
  exact hm

/-- Witness for C5: the failing migration aborts the run with its id, the
later migration is not attempted, and the first migration's ledger entry
survives. -/
theorem C5_migration_failure_witness :
    migrate ([mig1] ++ migFail :: [mig3]) ⟨[], []⟩ = (⟨["0001"], ["t1"]⟩, .error "0002")
    ∧ migrate ([mig1] ++ migFail :: [mig3]) ⟨[], []⟩ = migrate ([mig1] ++ [migFail]) ⟨[], []⟩
    ∧ (Store.mk [] []).ledger <+: (Store.mk ["0001"] ["t1"]).ledger
    ∧ ∀ m ∈ [mig1], m.id ∈ (Store.mk ["0001"] ["t1"]).ledger :=
  C5_migration_failure [mig1] [mig3] migFail ⟨[], []⟩ ⟨["0001"], ["t1"]⟩ 1
    rfl (by decide) rfl

/-- C6: rerunning migrate with the same ordered list against the store a
completed run left behind applies zero migrations and leaves the store
unchanged (no uniqueness assumption on ids is even needed). -/
theorem C6_migrate_idempotent (migs : List Migration) (s s1 : Store) (n : Nat)
    (h : migrate migs s = (s1, .ok n)) :
    migrate migs s1 = (s1, .ok 0) :=
  migrate_all_in_ledger migs s1 (migrate_ok_ids_in_ledger migs s s1 n h)

/-- Witness for C6: after a first run applying two migrations, the second
run applies zero. -/
theorem C6_migrate_idempotent_witness :
    migrate [mig1, mig3] ⟨["0001", "0003"], ["t1", "t3"]⟩ =
      (⟨["0001", "0003"], ["t1", "t3"]⟩, .ok 0) :=
  C6_migrate_idempotent [mig1, mig3] ⟨[], []⟩ ⟨["0001", "0003"], ["t1", "t3"]⟩ 2 rfl

/-- C9: for every configuration, the CORS allowed methods are exactly GET,
PUT, DELETE and credentials are always allowed; a POST never passes the
method check; origins, headers and exposed headers pass through from the
configuration. -/
theorem C9_cors_hardcoded (cfg : CorsInput) :
    (corsOptions cfg).allowedMethods = ["GET", "PUT", "DELETE"]
    ∧ (corsOptions cfg).allowCredentials = true
    ∧ methodAllowed (corsOptions cfg) "POST" = false
    ∧ (corsOptions cfg).allowedOrigins = cfg.allowedOrigins
    ∧ (corsOptions cfg).allowedHeaders = cfg.allowedHeaders
    ∧ (corsOptions cfg).exposedHeaders = cfg.exposedHeaders :=
  ⟨rfl, rfl, rfl, rfl, rfl, rfl⟩

/-- Witness for C9 at a concrete configuration. -/
theorem C9_cors_hardcoded_witness :
    methodAllowed (corsOptions ⟨["https://app.example"], ["Content-Type"], ["Link"]⟩)
      "POST" = false :=
  (C9_cors_hardcoded ⟨["https://app.example"], ["Content-Type"], ["Link"]⟩).2.2.1

end GoApi
